import Mathlib

/-!
Shallow embedding of the `rtlambda` AWS Lambda custom-runtime crate
(repository `Runtime-Aws_Lambda`), covering:

* `src/data/response.rs` — the `LambdaAPIResponse` interface with its
  status-band classification and body-extraction helpers;
* `src/data/context.rs` — the `LambdaContext::get_remaining_time_ms`
  deadline arithmetic;
* `src/data/env.rs` — the `LambdaRuntimeEnv` snapshot of the container
  environment and its single mutation entry point `set_trace_id`;
* `src/runtime/mod.rs` — the `handle_response` status-banding macro, the
  endpoint-URL construction of the four runtime-API methods, the
  `format_version_string` macro, and the head and reporting tail of one
  iteration of `DefaultRuntime::run`;
* `src/backends/ureq.rs` — `UreqResponse::from_response` and the
  header-attachment loop of `UreqTransport::request`.

Machine integers (`u16` status codes, `u64` millisecond counts, `usize`)
are modelled as `Nat`; `std::time::Duration` values are modelled as `Nat`
in a fixed time unit, which is faithful for the `checked_sub` comparison
and subtraction performed on them.  Rust `Result`/`Option` become
`Except`/`Option`.  A Rust `panic` (process termination) is reified as an
explicit `CallOutcome.panic` constructor so that termination behaviour is
visible to theorems.  Calls into the HTTP backend are modelled by passing
the transport's result in as a parameter and recording the requests the
code issues as an explicit list of `PostCall` values.
-/

/-! ### Header-name constants, from `src/data/response.rs` -/

def AWS_REQ_ID : String := "Lambda-Runtime-Aws-Request-Id"

def AWS_DEADLINE_MS : String := "Lambda-Runtime-Deadline-Ms"

def AWS_FUNC_ARN : String := "Lambda-Runtime-Invoked-Function-Arn"

def AWS_TRACE_ID : String := "Lambda-Runtime-Trace-Id"

def AWS_CLIENT_CTX : String := "Lambda-Runtime-Client-Context"

def AWS_COG_ID : String := "Lambda-Runtime-Cognito-Identity"

def AWS_FUNC_ERR_TYPE : String := "Lambda-Runtime-Function-Error-Type"

/-- From `src/error.rs`: `pub static CONTAINER_ERR`. -/
def CONTAINER_ERR : String := "Container error. Non-recoverable state."

/-! ### `LambdaAPIResponse` (trait in `src/data/response.rs`)

The trait's eight required accessors are modelled as the fields of a
structure: a value of the structure is the accessor view of one response
exposed by any implementation of the trait.  The trait's provided methods
(`event_response`, `error_response`, `is_success`, `is_client_err`,
`is_server_err`, `is_err`) become functions on that structure. -/

structure LambdaAPIResponse where
  get_body : Option String
  get_status_code : Nat
  aws_request_id : Option String
  deadline : Option Nat
  invoked_function_arn : Option String
  trace_id : Option String
  client_context : Option String
  cognito_identity : Option String

/-- `matches!(self.get_status_code(), 200..=299)`. -/
def is_success (r : LambdaAPIResponse) : Bool :=
  decide (200 ≤ r.get_status_code ∧ r.get_status_code ≤ 299)

/-- `matches!(self.get_status_code(), 400..=499)`. -/
def is_client_err (r : LambdaAPIResponse) : Bool :=
  decide (400 ≤ r.get_status_code ∧ r.get_status_code ≤ 499)

/-- `matches!(self.get_status_code(), 500..=599)`. -/
def is_server_err (r : LambdaAPIResponse) : Bool :=
  decide (500 ≤ r.get_status_code ∧ r.get_status_code ≤ 599)

/-- `matches!(self.get_status_code(), 400..=499 | 500..=599)`. -/
def is_err (r : LambdaAPIResponse) : Bool :=
  decide ((400 ≤ r.get_status_code ∧ r.get_status_code ≤ 499) ∨
          (500 ≤ r.get_status_code ∧ r.get_status_code ≤ 599))

/-- `match self.is_success() { true => self.get_body(), false => None }`. -/
def event_response (r : LambdaAPIResponse) : Option String :=
  if is_success r then r.get_body else none

/-- `match self.is_client_err() { true => self.get_body(), false => None }`. -/
def error_response (r : LambdaAPIResponse) : Option String :=
  if is_client_err r then r.get_body else none

/-! ### `LambdaContext::get_remaining_time_ms` (`src/data/context.rs`)

The source computes `SystemTime::now().duration_since(UNIX_EPOCH)` and
subtracts it from `self.get_deadline()` with `Duration::checked_sub`.
The clock reading is nondeterministic, so it is passed in as the
`now_result` parameter (`Ok` carries the duration since the epoch, `Err`
the clock error's message, mirroring `duration_since`).  The deadline
parameter is the value returned by `self.get_deadline()`. -/

/-- `Duration::checked_sub`: `None` when the subtrahend exceeds the value. -/
def checked_sub (a b : Nat) : Option Nat :=
  if b ≤ a then some (a - b) else none

def get_remaining_time_ms (now_result : Except String Nat) (deadline : Option Nat) :
    Except String Nat :=
  match now_result with
  | .ok now_since_epoch =>
    match deadline with
    | none => .error "Missing deadline info"
    | some dur =>
      match checked_sub dur now_since_epoch with
      | some d => .ok d
      | none => .error "Duration error"
  | .error e => .error e

/-! ### `LambdaRuntimeEnv` (`src/data/env.rs`) -/

inductive InitializationType where
  | OnDemand
  | ProvisionedConcurrency
  | Unknown

/-- `InitializationType::from_string`. -/
def InitializationType.from_string (itype : String) : InitializationType :=
  if itype = "on-demand" then .OnDemand
  else if itype = "provisioned-concurrency" then .ProvisionedConcurrency
  else .Unknown

structure LambdaRuntimeEnv where
  handler : Option String
  trace_id : Option String
  region : Option String
  execution_env : Option String
  function_name : Option String
  function_memory_size : Option Nat
  function_version : Option String
  initialization_type : InitializationType
  log_group_name : Option String
  log_stream_name : Option String
  access_key : Option String
  access_key_id : Option String
  secret_access_key : Option String
  session_token : Option String
  runtime_api : Option String
  task_root : Option String
  runtime_dir : Option String
  tz : Option String

/-- `RuntimeEnvVars::set_trace_id` for `LambdaRuntimeEnv`:
`self.trace_id = new_id.map(|v| v.to_string())`. -/
def set_trace_id (env : LambdaRuntimeEnv) (new_id : Option String) : LambdaRuntimeEnv :=
  { env with trace_id := new_id.map (fun v => v) }

/-- `RuntimeEnvVars::get_runtime_api` for `LambdaRuntimeEnv`. -/
def get_runtime_api (env : LambdaRuntimeEnv) : Option String :=
  env.runtime_api

/-! ### `UreqTransport::request` header attachment (`src/backends/ureq.rs`)

The loop
`let len = min(keys.len(), values.len()); for i in 0..len { req.set(keys[i], values[i]) }`
is embedded as the list of header pairs it attaches to the request.  The
indexing `keys[i]` / `values[i]` is always in bounds because `i < len`;
`List.getD` with a default is therefore an exact model. -/

def request_headers (headers : Option (List String × List String)) :
    List (String × String) :=
  match headers with
  | none => []
  | some (keys, values) =>
    (List.range (min keys.length values.length)).map
      (fun i => (keys.getD i "", values.getD i ""))

/-! ### `UreqResponse` and `UreqResponse::from_response` (`src/backends/ureq.rs`) -/

/-- Lookup of a response header by name, modelling `ureq::Response::header`.
The raw reply's headers are modelled as an association list of
name/value pairs searched for the first exact match. -/
def header (headers : List (String × String)) (name : String) : Option String :=
  (headers.find? (fun p => p.fst == name)).map (fun p => p.snd)

/-- `str::parse::<u64>`: an optional leading plus sign, then one or more
ASCII digits, rejecting values outside the `u64` range. -/
def parse_u64 (s : String) : Option Nat :=
  let digits :=
    match s.data with
    | '+' :: rest => rest
    | l => l
  if digits.isEmpty then none
  else if digits.all Char.isDigit then
    let val := digits.foldl (fun acc c => acc * 10 + (c.toNat - '0'.toNat)) 0
    if val < 2 ^ 64 then some val else none
  else none

structure UreqResponse where
  body : Option String
  status : Nat
  _request_id : String
  _deadline : Option Nat
  _arn : Option String
  _trace_id : Option String
  _cognito_id : Option String
  _client_context : Option String

/-- `UreqResponse::from_response`.  The consumed `ureq::Response` is
modelled by its status code, its header list and the result of
`resp.into_string()` (which can fail on an unreadable body).  The
source copies the status, then returns an error if the request-id
header is absent, then parses the deadline header (parse failures
degrade to `None`), copies the remaining headers, and finally reads
the body, failing if that read fails. -/
def from_response (status : Nat) (headers : List (String × String))
    (body_result : Except String String) : Except String UreqResponse :=
  match header headers AWS_REQ_ID with
  | none => .error "Missing Lambda-Runtime-Aws-Request-Id header"
  | some _request_id =>
    let _deadline :=
      match header headers AWS_DEADLINE_MS with
      | some ms =>
        match parse_u64 ms with
        | some val => some val
        | none => none
      | none => none
    let _arn := header headers AWS_FUNC_ARN
    let _trace_id := header headers AWS_TRACE_ID
    let _cognito_id := header headers AWS_COG_ID
    let _client_context := header headers AWS_CLIENT_CTX
    match body_result with
    | .error err => .error err
    | .ok data =>
      .ok { body := some data, status, _request_id, _deadline, _arn,
            _trace_id, _cognito_id, _client_context }

/-- `impl LambdaAPIResponse for UreqResponse`: the accessor view of a
constructed `UreqResponse`.  Note `aws_request_id` always returns
`Some(&self._request_id)`. -/
def UreqResponse.toLambdaAPIResponse (r : UreqResponse) : LambdaAPIResponse :=
  { get_body := r.body
    get_status_code := r.status
    aws_request_id := some r._request_id
    deadline := r._deadline
    invoked_function_arn := r._arn
    trace_id := r._trace_id
    client_context := r._client_context
    cognito_identity := r._cognito_id }

/-! ### Runtime (`src/runtime/mod.rs`) -/

/-- Outcome of one runtime-API method call.  `err` is the `Err` variant of
the Rust `Result`; `panic` reifies process termination via `panic`;
`ok` is the `Ok` variant. -/
inductive CallOutcome (α : Type) where
  | err (msg : String)
  | panic (msg : String)
  | ok (val : α)

def CallOutcome.is_panic {α : Type} : CallOutcome α → Bool
  | .panic _ => true
  | _ => false

/-- The `handle_response` macro: `400..=499` becomes a returned client
error (with `error_response().or(Some("")).unwrap()` as detail), `500`
terminates the process with `CONTAINER_ERR`, every other status falls
through and the surrounding method returns the response. -/
def handle_response (resp : LambdaAPIResponse) : CallOutcome LambdaAPIResponse :=
  if 400 ≤ resp.get_status_code ∧ resp.get_status_code ≤ 499 then
    .err ("Client error (" ++ toString resp.get_status_code ++ "). ErrorResponse: " ++
      ((error_response resp).getD ""))
  else if resp.get_status_code = 500 then
    .panic CONTAINER_ERR
  else
    .ok resp

/-- The `format_version_string` macro:
`version.strip_prefix("/")` taken when it matches, else `version`. -/
def format_version_string (version : String) : String :=
  match version.data with
  | '/' :: rest => String.mk rest
  | _ => version

structure DefaultRuntime where
  env_vars : LambdaRuntimeEnv
  version : String
  api_base : String

/-- `DefaultRuntime::new`: resolves the API base address from the
environment (terminating the process when it is absent, modelled as
`none`) and stores the formatted version string. -/
def DefaultRuntime.new (version : String) (env_vars : LambdaRuntimeEnv) :
    Option DefaultRuntime :=
  match get_runtime_api env_vars with
  | none => none
  | some api_base =>
    some { env_vars, version := format_version_string version, api_base }

/-- URL of `next_invocation`:
`format!("http://{}/{}/runtime/invocation/next", api_base, version)`. -/
def next_invocation_url (api_base version : String) : String :=
  "http://" ++ api_base ++ "/" ++ version ++ "/runtime/invocation/next"

/-- URL of `invocation_response`. -/
def invocation_response_url (api_base version request_id : String) : String :=
  "http://" ++ api_base ++ "/" ++ version ++ "/runtime/invocation/" ++ request_id ++
    "/response"

/-- URL of `initialization_error`. -/
def init_error_url (api_base version : String) : String :=
  "http://" ++ api_base ++ "/" ++ version ++ "/runtime/init/error"

/-- URL of `invocation_error`. -/
def invocation_error_url (api_base version request_id : String) : String :=
  "http://" ++ api_base ++ "/" ++ version ++ "/runtime/invocation/" ++ request_id ++
    "/error"

/-- One HTTP request issued through the `Transport` trait: target URL,
optional body, and the header pairs attached by
`UreqTransport::request`. -/
structure PostCall where
  url : String
  body : Option String
  headers : List (String × String)

/-- `LambdaRuntime::next_invocation` for `DefaultRuntime`, after the GET:
the `?` operator propagates a transport failure, then the response runs
through `handle_response`.  The transport's result is the
`transport_result` parameter.  (The subsequent trace-id propagation
into the environment is `next_invocation_env` below; it does not affect
the returned value.) -/
def next_invocation (transport_result : Except String LambdaAPIResponse) :
    CallOutcome LambdaAPIResponse :=
  match transport_result with
  | .error e => .err e
  | .ok resp => handle_response resp

/-- The trace-id propagation step of `next_invocation`:
`if let Some(req_id) = resp.trace_id() { ... self.env_vars.set_trace_id(Some(req_id)); }`. -/
def next_invocation_env (env : LambdaRuntimeEnv) (resp : LambdaAPIResponse) :
    LambdaRuntimeEnv :=
  match resp.trace_id with
  | some req_id => set_trace_id env (some req_id)
  | none => env

/-- `LambdaRuntime::invocation_response` for `DefaultRuntime`.
`serialized_result` is the result of `serde_json::to_string(response)`;
on its failure the method returns a local error before issuing any
request.  Otherwise it POSTs the serialized body (with `None` headers)
and runs the reply through `handle_response`.  The second component
lists the requests issued. -/
def invocation_response (api_base version request_id : String)
    (serialized_result : Except String String)
    (post_result : Except String LambdaAPIResponse) :
    CallOutcome LambdaAPIResponse × List PostCall :=
  let url := invocation_response_url api_base version request_id
  match serialized_result with
  | .error err => (.err ("Failed serializing output to JSON. " ++ err), [])
  | .ok serialized =>
    match post_result with
    | .error e => (.err e, [{ url, body := some serialized, headers := request_headers none }])
    | .ok resp =>
      (handle_response resp, [{ url, body := some serialized, headers := request_headers none }])

/-- `LambdaRuntime::initialization_error` for `DefaultRuntime`: POSTs the
optional error body with the optional
`Lambda-Runtime-Function-Error-Type` header and runs the reply through
`handle_response`. -/
def initialization_error (api_base version : String)
    (error_type error_req : Option String)
    (post_result : Except String LambdaAPIResponse) :
    CallOutcome LambdaAPIResponse × List PostCall :=
  let url := init_error_url api_base version
  let headers := error_type.map (fun et => ([AWS_FUNC_ERR_TYPE], [et]))
  match post_result with
  | .error e => (.err e, [{ url, body := error_req, headers := request_headers headers }])
  | .ok resp => (handle_response resp, [{ url, body := error_req, headers := request_headers headers }])

/-- `LambdaRuntime::invocation_error` for `DefaultRuntime`: like
`initialization_error` but keyed by request id. -/
def invocation_error (api_base version request_id : String)
    (error_type error_req : Option String)
    (post_result : Except String LambdaAPIResponse) :
    CallOutcome LambdaAPIResponse × List PostCall :=
  let url := invocation_error_url api_base version request_id
  let headers := error_type.map (fun et => ([AWS_FUNC_ERR_TYPE], [et]))
  match post_result with
  | .error e => (.err e, [{ url, body := error_req, headers := request_headers headers }])
  | .ok resp => (handle_response resp, [{ url, body := error_req, headers := request_headers headers }])

/-- What the head of one iteration of `DefaultRuntime::run` decides to do
with the result of `next_invocation`. -/
inductive PollDecision where
  | fatal (msg : String)
  | skip_no_report
  | skip_with_report (error_type : Option String)
  | proceed (request_id : String) (event : Option String)

/-- The head of one iteration of `DefaultRuntime::run`: a propagated
termination stays fatal; `if next.is_err() { continue }` skips with no
report; a response without a request id triggers
`self.initialization_error(Some("Runtime.MissingRequestId"), None)`
(result discarded) and skips; otherwise the iteration proceeds to
invoke the handler on `next_resp.event_response()`. -/
def run_poll_step (next : CallOutcome LambdaAPIResponse) : PollDecision :=
  match next with
  | .panic msg => .fatal msg
  | .err _ => .skip_no_report
  | .ok resp =>
    match resp.aws_request_id with
    | none => .skip_with_report (some "Runtime.MissingRequestId")
    | some request_id => .proceed request_id (event_response resp)

/-- The reporting tail of one iteration of `DefaultRuntime::run`:
`Ok(out)` goes to `invocation_response` (whose serialization of `out`
is modelled by the `serialize` parameter), `Err(err)` is formatted and
goes to `invocation_error`; the returned `Result` is discarded by
`let _ = ...`. -/
def run_report_step (api_base version request_id : String)
    (lambda_output : Except String String)
    (serialize : String → Except String String)
    (post_result : Except String LambdaAPIResponse) :
    CallOutcome LambdaAPIResponse × List PostCall :=
  match lambda_output with
  | .ok out => invocation_response api_base version request_id (serialize out) post_result
  | .error err => invocation_error api_base version request_id (some err) (some err) post_result

/-! ### Concrete sample values used by the closed theorems below -/

/-- A response carrying a given status code and nothing else, as an
implementation of the `LambdaAPIResponse` accessors may expose it. -/
def mkResp (status_code : Nat) : LambdaAPIResponse :=
  { get_body := none
    get_status_code := status_code
    aws_request_id := none
    deadline := none
    invoked_function_arn := none
    trace_id := none
    client_context := none
    cognito_identity := none }

/-- A concrete environment snapshot with the runtime API address set. -/
def test_env : LambdaRuntimeEnv :=
  { handler := none
    trace_id := none
    region := none
    execution_env := none
    function_name := none
    function_memory_size := none
    function_version := none
    initialization_type := .Unknown
    log_group_name := none
    log_stream_name := none
    access_key := none
    access_key_id := none
    secret_access_key := none
    session_token := none
    runtime_api := some "127.0.0.1:9001"
    task_root := none
    runtime_dir := none
    tz := none }

/-! ### Shared lemmas -/

/-- `handle_response` terminates the process exactly on status code 500. -/
theorem handle_response_is_panic (resp : LambdaAPIResponse) :
    (handle_response resp).is_panic = decide (resp.get_status_code = 500) := by
  unfold handle_response
  by_cases h1 : 400 ≤ resp.get_status_code ∧ resp.get_status_code ≤ 499
  · rw [if_pos h1]
    have h2 : resp.get_status_code ≠ 500 := by omega
    simp [CallOutcome.is_panic, h2]
  · rw [if_neg h1]
    by_cases h2 : resp.get_status_code = 500
    · rw [if_pos h2]
      simp [CallOutcome.is_panic, h2]
    · rw [if_neg h2]
      simp [CallOutcome.is_panic, h2]

/-- The header-attachment loop of `UreqTransport::request` sends exactly
the positional pairing of the two sequences, truncated to the shorter. -/
theorem range_map_getD_eq_zip (keys values : List String) :
    (List.range (min keys.length values.length)).map
      (fun i => (keys.getD i "", values.getD i "")) = keys.zip values := by
  induction keys generalizing values with
  | nil => simp
  | cons k ks ih =>
    cases values with
    | nil => simp
    | cons v vs =>
      simp only [List.length_cons, Nat.succ_min_succ, List.range_succ_eq_map,
        List.map_cons, List.map_map, List.zip_cons_cons]
      congr 1
      rw [← ih vs]
      apply List.map_congr_left
      intro i _
      simp [Function.comp]

/-! ### Claim C1 -/

/-- Claim C1, counterexample: a response with status code 502 — which
`is_server_err` places in the 500-599 server-error band — is not fatal:
`handle_response` falls through its catch-all arm and `next_invocation`
returns the response normally, so the loop continues to poll. -/
theorem c1_counterexample_502_not_fatal :
    is_server_err (mkResp 502) = true ∧
    handle_response (mkResp 502) = CallOutcome.ok (mkResp 502) ∧
    next_invocation (Except.ok (mkResp 502)) = CallOutcome.ok (mkResp 502) :=
  ⟨rfl, rfl, rfl⟩

/-- Claim C1, amended: handling a response in the runtime loop is fatal
exactly when its status code is 500 (the process terminates with
`CONTAINER_ERR`); every other 500-599 status falls through the
`handle_response` catch-all and the call returns normally.  This holds
uniformly in all four methods (`next_invocation`,
`invocation_response`, `initialization_error`, `invocation_error`),
which all run their reply through `handle_response`. -/
theorem c1_fatal_iff_status_500 (resp : LambdaAPIResponse)
    (api_base version request_id serialized : String)
    (error_type error_req : Option String) :
    (handle_response resp).is_panic = decide (resp.get_status_code = 500) ∧
    (next_invocation (Except.ok resp)).is_panic = decide (resp.get_status_code = 500) ∧
    ((invocation_response api_base version request_id (Except.ok serialized)
        (Except.ok resp)).1).is_panic = decide (resp.get_status_code = 500) ∧
    ((initialization_error api_base version error_type error_req
        (Except.ok resp)).1).is_panic = decide (resp.get_status_code = 500) ∧
    ((invocation_error api_base version request_id error_type error_req
        (Except.ok resp)).1).is_panic = decide (resp.get_status_code = 500) ∧
    handle_response (mkResp 500) = CallOutcome.panic CONTAINER_ERR := by
  have h := handle_response_is_panic resp
  exact ⟨h, h, h, h, h, rfl⟩

/-! ### Claim C2 -/

/-- Claim C2, counterexample: a polled 200 response with no request-id
header does not even construct — `UreqResponse::from_response` fails
with a missing-header error — so with the `ureq` backend the loop
skips the iteration through its transport-error branch with no
missing-request-id report at all. -/
theorem c2_counterexample_missing_request_id_fails_construction :
    from_response 200 [] (Except.ok "") =
      Except.error "Missing Lambda-Runtime-Aws-Request-Id header" ∧
    run_poll_step (next_invocation (Except.map UreqResponse.toLambdaAPIResponse
      (from_response 200 [] (Except.ok "")))) = PollDecision.skip_no_report :=
  ⟨rfl, rfl⟩

/-- Claim C2, amended: for a response whose request-id header is absent,
`UreqResponse::from_response` fails construction with a
missing-header error (regardless of status code and body), so with
the `ureq` backend the poll surfaces as a transport-level error and
the loop continues with no report; the missing-request-id branch of
`run` — no handler invocation, a best-effort
`Runtime.MissingRequestId` report through the init-error path, and
continuing to the next poll — applies only to a `LambdaAPIResponse`
implementation whose `aws_request_id` accessor can return `None`. -/
theorem c2_missing_request_id (status : Nat) (headers : List (String × String))
    (body_result : Except String String) (resp : LambdaAPIResponse)
    (h1 : header headers AWS_REQ_ID = none)
    (h2 : resp.aws_request_id = none) :
    from_response status headers body_result =
      Except.error "Missing Lambda-Runtime-Aws-Request-Id header" ∧
    run_poll_step (CallOutcome.ok resp) =
      PollDecision.skip_with_report (some "Runtime.MissingRequestId") := by
  constructor
  · simp [from_response, h1]
  · simp [run_poll_step, h2]

/-- Witness for `c2_missing_request_id` at a concrete empty header list,
status 200, and a response exposing no request id. -/
theorem c2_missing_request_id_witness :
    header [] AWS_REQ_ID = none ∧ (mkResp 200).aws_request_id = none ∧
    (from_response 200 [] (Except.ok "") =
        Except.error "Missing Lambda-Runtime-Aws-Request-Id header" ∧
      run_poll_step (CallOutcome.ok (mkResp 200)) =
        PollDecision.skip_with_report (some "Runtime.MissingRequestId")) :=
  ⟨rfl, rfl, c2_missing_request_id 200 [] (Except.ok "") (mkResp 200) rfl rfl⟩

/-! ### Claim C3 -/

/-- Claim C3, counterexample: when serialization of the success output
fails, `invocation_response` returns a local error having issued no
HTTP request at all — in particular no POST to the error endpoint —
and the reporting tail of `run` discards that error. -/
theorem c3_counterexample_serialization_failure_posts_nothing :
    (invocation_response "127.0.0.1:9001" "2018-06-01" "8476a536"
      (Except.error "serde failure") (Except.ok (mkResp 202))).2 = [] ∧
    (invocation_response "127.0.0.1:9001" "2018-06-01" "8476a536"
      (Except.error "serde failure") (Except.ok (mkResp 202))).1 =
      CallOutcome.err "Failed serializing output to JSON. serde failure" ∧
    (run_report_step "127.0.0.1:9001" "2018-06-01" "8476a536" (Except.ok "out")
      (fun _ => Except.error "serde failure") (Except.ok (mkResp 202))).2 = [] :=
  ⟨rfl, rfl, rfl⟩

/-- Claim C3, amended: a JSON-serialization failure of the success output
is treated as a local error only: `invocation_response` returns
`Err("Failed serializing output to JSON. ...")` before issuing any
request, so nothing is POSTed to either the response endpoint or the
error endpoint, and the `run` loop discards the error and continues. -/
theorem c3_serialization_failure_is_local
    (api_base version request_id err out : String)
    (post_result : Except String LambdaAPIResponse) :
    invocation_response api_base version request_id (Except.error err) post_result =
      (CallOutcome.err ("Failed serializing output to JSON. " ++ err), []) ∧
    run_report_step api_base version request_id (Except.ok out)
        (fun _ => Except.error err) post_result =
      (CallOutcome.err ("Failed serializing output to JSON. " ++ err), []) :=
  ⟨rfl, rfl⟩

/-! ### Claim C4 -/

/-- Claim C4, counterexample: status code 300 lies in 100-599, yet none of
the three bands holds — the bands are not exhaustive over 100-599. -/
theorem c4_counterexample_status_300_in_no_band :
    (100 ≤ 300 ∧ 300 ≤ 599) ∧
    is_success (mkResp 300) = false ∧
    is_client_err (mkResp 300) = false ∧
    is_server_err (mkResp 300) = false :=
  ⟨⟨by decide, by decide⟩, rfl, rfl, rfl⟩

/-- Claim C4, amended: for every status code in 200-299, `is_success`
holds and `is_client_err`/`is_server_err` are false; the three bands
are pairwise mutually exclusive; and exactly one band holds precisely
for status codes in 200-299 or 400-599 — statuses in 100-199 and
300-399 belong to no band, so the bands are not exhaustive over
100-599. -/
theorem c4_band_classification (r : LambdaAPIResponse) :
    is_success r = decide (200 ≤ r.get_status_code ∧ r.get_status_code ≤ 299) ∧
    (is_success r && is_client_err r) = false ∧
    (is_success r && is_server_err r) = false ∧
    (is_client_err r && is_server_err r) = false ∧
    (is_success r || (is_client_err r || is_server_err r)) =
      decide ((200 ≤ r.get_status_code ∧ r.get_status_code ≤ 299) ∨
              (400 ≤ r.get_status_code ∧ r.get_status_code ≤ 599)) := by
  refine ⟨rfl, ?_, ?_, ?_, ?_⟩
  · simp only [is_success, is_client_err, ← Bool.decide_and, decide_eq_false_iff_not]
    omega
  · simp only [is_success, is_server_err, ← Bool.decide_and, decide_eq_false_iff_not]
    omega
  · simp only [is_client_err, is_server_err, ← Bool.decide_and, decide_eq_false_iff_not]
    omega
  · simp only [is_success, is_client_err, is_server_err, ← Bool.decide_or,
      decide_eq_decide]
    omega

/-! ### Claim C5 -/

/-- Claim C5, confirmed: when the invocation carries no deadline,
`get_remaining_time_ms` returns the `"Missing deadline info"` error for
every clock reading; for every clock result it returns some error and
never a duration (and, being a total function into `Except` over `Nat`
durations, it can neither crash nor produce a negative or
wrapped-around value). -/
theorem c5_missing_deadline_errors (now : Nat) (now_result : Except String Nat) :
    get_remaining_time_ms (Except.ok now) none =
      Except.error "Missing deadline info" ∧
    ∃ e, get_remaining_time_ms now_result none = Except.error e := by
  refine ⟨rfl, ?_⟩
  match now_result with
  | .ok n => exact ⟨"Missing deadline info", rfl⟩
  | .error e => exact ⟨e, rfl⟩

/-! ### Claim C6 -/

/-- Claim C6, confirmed: when the deadline lies strictly before the
current time, the checked subtraction yields `None` and
`get_remaining_time_ms` fails with the `"Duration error"`
clock/arithmetic condition instead of producing a negative or
wrapped-around duration. -/
theorem c6_past_deadline_errors (now dl : Nat) (h : dl < now) :
    get_remaining_time_ms (Except.ok now) (some dl) =
      Except.error "Duration error" := by
  have hns : ¬ now ≤ dl := by omega
  simp [get_remaining_time_ms, checked_sub, hns]

/-- Witness for `c6_past_deadline_errors` at `now = 5`, `deadline = 3`. -/
theorem c6_past_deadline_errors_witness :
    3 < 5 ∧ get_remaining_time_ms (Except.ok 5) (some 3) =
      Except.error "Duration error" :=
  ⟨by decide, c6_past_deadline_errors 5 3 (by decide)⟩

/-! ### Claim C8 -/

/-- Claim C8, confirmed: `set_trace_id` updates the trace-id field and
leaves every one of the other seventeen fields of the environment
snapshot unchanged. -/
theorem c8_set_trace_id_frame (env : LambdaRuntimeEnv) (new_id : Option String) :
    (set_trace_id env new_id).trace_id = new_id.map (fun v => v) ∧
    (set_trace_id env new_id).handler = env.handler ∧
    (set_trace_id env new_id).region = env.region ∧
    (set_trace_id env new_id).execution_env = env.execution_env ∧
    (set_trace_id env new_id).function_name = env.function_name ∧
    (set_trace_id env new_id).function_memory_size = env.function_memory_size ∧
    (set_trace_id env new_id).function_version = env.function_version ∧
    (set_trace_id env new_id).initialization_type = env.initialization_type ∧
    (set_trace_id env new_id).log_group_name = env.log_group_name ∧
    (set_trace_id env new_id).log_stream_name = env.log_stream_name ∧
    (set_trace_id env new_id).access_key = env.access_key ∧
    (set_trace_id env new_id).access_key_id = env.access_key_id ∧
    (set_trace_id env new_id).secret_access_key = env.secret_access_key ∧
    (set_trace_id env new_id).session_token = env.session_token ∧
    (set_trace_id env new_id).runtime_api = env.runtime_api ∧
    (set_trace_id env new_id).task_root = env.task_root ∧
    (set_trace_id env new_id).runtime_dir = env.runtime_dir ∧
    (set_trace_id env new_id).tz = env.tz :=
  ⟨rfl, rfl, rfl, rfl, rfl, rfl, rfl, rfl, rfl, rfl, rfl, rfl, rfl, rfl, rfl,
    rfl, rfl, rfl⟩

/-! ### Claim C7 -/

/-- Prepending one path separator is always cancelled by
`format_version_string`, which strips exactly one. -/
theorem format_version_string_slash_append (v : String) :
    format_version_string ("/" ++ v) = v := by
  cases v with
  | mk d => rfl

/-- On a version string with no leading separator, `format_version_string`
is the identity. -/
theorem format_version_string_no_slash (v : String)
    (h : v.data.head? ≠ some '/') : format_version_string v = v := by
  unfold format_version_string
  split
  · rename_i rest heq
    rw [heq] at h
    simp at h
  · rfl

/-- Claim C7, counterexample: for the version string `"/a"`, which itself
begins with a separator, prepending `"/"` does not produce the same
endpoint URLs — `format_version_string` strips exactly one separator,
so `"/a"` formats to `"a"` while `"//a"` formats to `"/a"`. -/
theorem c7_counterexample_leading_slash_version :
    format_version_string "/a" = "a" ∧
    format_version_string ("/" ++ "/a") = "/a" ∧
    decide (next_invocation_url "127.0.0.1:9001" (format_version_string ("/" ++ "/a")) =
      next_invocation_url "127.0.0.1:9001" (format_version_string "/a")) = false := by
  refine ⟨rfl, rfl, ?_⟩
  decide

/-- Claim C7, amended: for every API version string `v` that does not
itself begin with a path separator, constructing the runtime with `v`
and with `"/" ++ v` produces identical endpoint URLs for every
endpoint (and an identical stored version string in
`DefaultRuntime::new`), because exactly one leading separator is
stripped; in particular `"2018-06-01"` and `"/2018-06-01"` yield the
same URLs. -/
theorem c7_version_urls_agree (v api_base request_id : String)
    (env : LambdaRuntimeEnv) (h : v.data.head? ≠ some '/') :
    next_invocation_url api_base (format_version_string ("/" ++ v)) =
      next_invocation_url api_base (format_version_string v) ∧
    invocation_response_url api_base (format_version_string ("/" ++ v)) request_id =
      invocation_response_url api_base (format_version_string v) request_id ∧
    init_error_url api_base (format_version_string ("/" ++ v)) =
      init_error_url api_base (format_version_string v) ∧
    invocation_error_url api_base (format_version_string ("/" ++ v)) request_id =
      invocation_error_url api_base (format_version_string v) request_id ∧
    (DefaultRuntime.new ("/" ++ v) env).map DefaultRuntime.version =
      (DefaultRuntime.new v env).map DefaultRuntime.version := by
  have e1 : format_version_string ("/" ++ v) = v := format_version_string_slash_append v
  have e2 : format_version_string v = v := format_version_string_no_slash v h
  refine ⟨?_, ?_, ?_, ?_, ?_⟩
  · rw [e1, e2]
  · rw [e1, e2]
  · rw [e1, e2]
  · rw [e1, e2]
  · simp only [DefaultRuntime.new, e1, e2]

/-- Witness for `c7_version_urls_agree` at the documented version string
`"2018-06-01"`. -/
theorem c7_version_urls_agree_witness :
    ("2018-06-01" : String).data.head? ≠ some '/' ∧
    (next_invocation_url "127.0.0.1:9001" (format_version_string ("/" ++ "2018-06-01")) =
        next_invocation_url "127.0.0.1:9001" (format_version_string "2018-06-01") ∧
      invocation_response_url "127.0.0.1:9001"
          (format_version_string ("/" ++ "2018-06-01")) "8476a536" =
        invocation_response_url "127.0.0.1:9001"
          (format_version_string "2018-06-01") "8476a536" ∧
      init_error_url "127.0.0.1:9001" (format_version_string ("/" ++ "2018-06-01")) =
        init_error_url "127.0.0.1:9001" (format_version_string "2018-06-01") ∧
      invocation_error_url "127.0.0.1:9001"
          (format_version_string ("/" ++ "2018-06-01")) "8476a536" =
        invocation_error_url "127.0.0.1:9001"
          (format_version_string "2018-06-01") "8476a536" ∧
      (DefaultRuntime.new ("/" ++ "2018-06-01") test_env).map DefaultRuntime.version =
        (DefaultRuntime.new "2018-06-01" test_env).map DefaultRuntime.version) :=
  ⟨by decide,
    c7_version_urls_agree "2018-06-01" "127.0.0.1:9001" "8476a536" test_env (by decide)⟩

/-! ### Claim C9 -/

/-- Claim C9, confirmed: for any two header-name and header-value
sequences, the transport attaches exactly the positional pairing of
the two — `min(len(names), len(values))` pairs, the overlapping
prefix — and the attachment is a total function: a length mismatch is
silently truncated, never reported as a failure. -/
theorem c9_header_pairs_truncated (keys values : List String) :
    request_headers (some (keys, values)) = keys.zip values ∧
    (request_headers (some (keys, values))).length =
      min keys.length values.length ∧
    request_headers none = [] := by
  refine ⟨?_, ?_, rfl⟩
  · simpa [request_headers] using range_map_getD_eq_zip keys values
  · simp [request_headers]

/-! ### Claim C10 -/

/-- Claim C10, confirmed: `is_err` agrees with the disjunction of
`is_client_err` and `is_server_err` and holds exactly on status codes
400-599; `event_response` yields the body only when `is_success`
holds, `error_response` only when `is_client_err` holds, and for a
server-error status both yield `None`. -/
theorem c10_is_err_band_agreement (r : LambdaAPIResponse) :
    is_err r = (is_client_err r || is_server_err r) ∧
    is_err r = decide (400 ≤ r.get_status_code ∧ r.get_status_code ≤ 599) ∧
    (event_response r = none ∨ is_success r = true) ∧
    (error_response r = none ∨ is_client_err r = true) ∧
    (is_server_err r = false ∨
      (event_response r = none ∧ error_response r = none)) := by
  refine ⟨?_, ?_, ?_, ?_, ?_⟩
  · simp only [is_err, is_client_err, is_server_err, ← Bool.decide_or]
  · simp only [is_err, decide_eq_decide]
    omega
  · cases hb : is_success r with
    | true => exact Or.inr rfl
    | false => exact Or.inl (by simp [event_response, hb])
  · cases hb : is_client_err r with
    | true => exact Or.inr rfl
    | false => exact Or.inl (by simp [error_response, hb])
  · cases hb : is_server_err r with
    | false => exact Or.inl rfl
    | true =>
      simp only [is_server_err, decide_eq_true_eq] at hb
      have hs : is_success r = false := by
        simp only [is_success, decide_eq_false_iff_not]
        omega
      have hc : is_client_err r = false := by
        simp only [is_client_err, decide_eq_false_iff_not]
        omega
      exact Or.inr ⟨by simp [event_response, hs], by simp [error_response, hc]⟩
